import Mathlib

/-
  Verification of the birq daemon (src/birq.c) against its natural-language
  specification.  The definitions below are a shallow embedding of the C
  source: pure C functions become Lean functions, the mutable options
  structure is passed explicitly, fallible C functions (returning -1 on
  error) become Option / Bool-paired results, and the side-effecting parts
  of main() are modelled as functions from an abstract environment
  (file readability, daemon(2) success, pidfile open success, per-tick scan
  results) to an outcome record or an event trace.
-/

namespace Birq

/-! ## Constants

Numeric defaults from birq.h (the header is not part of src/; the values are
the documented defaults: threshold 99.0, load-limit 99.0, short interval 2,
long interval 5).  The pidfile/cfgfile paths are never inspected by any claim;
only their identity matters. -/

/-- Modelled from the spec: default threshold (percent) from birq.h. -/
def BIRQ_DEFAULT_THRESHOLD : Rat := 99

/-- Modelled from the spec: default load limit (percent) from birq.h. -/
def BIRQ_DEFAULT_LOAD_LIMIT : Rat := 99

/-- Modelled from the spec: default short iteration interval (seconds). -/
def BIRQ_SHORT_INTERVAL : Nat := 2

/-- Modelled from the spec: default long iteration interval (seconds). -/
def BIRQ_LONG_INTERVAL : Nat := 5

/-- Modelled from the spec: default pidfile path from birq.h. -/
def BIRQ_PIDFILE : String := "/var/run/birq.pid"

/-- Modelled from the spec: default config file path from birq.h. -/
def BIRQ_CFGFILE : String := "/etc/birq/birq.conf"

/-- syslog LOG_DAEMON facility constant (3 shifted left by 3). -/
def LOG_DAEMON : Nat := 24

/-- Strategy enumeration birq_choose_strategy_e from birq.h. -/
inductive birq_choose_strategy_e where
  | BIRQ_CHOOSE_MAX
  | BIRQ_CHOOSE_MIN
  | BIRQ_CHOOSE_RND
deriving DecidableEq

/-! ## CPU mask model

Modelled from the spec section 4.1: cpumask.h / bit_array.c / hexio.c are not
under src/.  A mask is a natural number below 2 ^ NR_CPUS; bit i set means
CPU i is in the mask.  Parse accepts the kernel comma-separated hex format
(groups of at most 8 hex digits, rightmost group is bits 0..31), rejects
non-hex characters and unexpected commas, and zeroes bits beyond NR_CPUS. -/

/-- Modelled from the spec: fixed compile-time CPU-id width (the source
uses a build-time constant; the claims are independent of its value). -/
def NR_CPUS : Nat := 256

/-- The all-ones mask over NR_CPUS bits. -/
def cpumaskOnes : Nat := 2 ^ NR_CPUS - 1

/-- Modelled from the spec: cpus_setall, the full mask. -/
def cpus_setall : Nat := cpumaskOnes

/-- Modelled from the spec: cpus_or, bitwise union of two masks. -/
def cpus_or (a b : Nat) : Nat := a ||| b

/-- Modelled from the spec: cpus_complement over the NR_CPUS-bit space. -/
def cpus_complement (m : Nat) : Nat := m ^^^ cpumaskOnes

/-- Value of one hex digit, or none for a non-hex character. -/
def hexVal (c : Char) : Option Nat :=
  if 48 ≤ c.toNat ∧ c.toNat ≤ 57 then some (c.toNat - 48)
  else if 97 ≤ c.toNat ∧ c.toNat ≤ 102 then some (c.toNat - 97 + 10)
  else if 65 ≤ c.toNat ∧ c.toNat ≤ 70 then some (c.toNat - 65 + 10)
  else none

/-- Modelled from the spec: one 32-bit group of the kernel hex format:
1 to 8 hex digits. -/
def parseHexGroup (g : List Char) : Option Nat :=
  if g.length = 0 ∨ 8 < g.length then none
  else g.foldl (fun acc c =>
    match acc, hexVal c with
    | some a, some d => some (a * 16 + d)
    | _, _ => none) (some 0)

/-- Split a character list on commas; empty groups are kept (and later
rejected by parseHexGroup, which models the kernel rejecting unexpected
commas). -/
def splitGroups : List Char → List (List Char)
  | [] => [[]]
  | c :: rest =>
    let r := splitGroups rest
    if c = ',' then [] :: r
    else
      match r with
      | [] => [[c]]
      | g :: gs => (c :: g) :: gs

/-- Modelled from the spec: cpumask_parse_user, kernel comma-separated hex
mask parser.  The leftmost group is the most significant 32 bits; bits at or
beyond NR_CPUS are dropped. -/
def cpumask_parse_user (s : String) : Option Nat :=
  let gs := splitGroups s.data
  let v := gs.foldl (fun acc g =>
    match acc, parseHexGroup g with
    | some a, some x => some (a * 2 ^ 32 + x)
    | _, _ => none) (some 0)
  match v with
  | none => none
  | some x => some (x % 2 ^ NR_CPUS)

/-! ## INI model

Modelled from the spec section 6: lub/ini is not under src/.  A parsed ini
file is an association list of key/value string pairs; lub_ini_find returns
the value of the first pair with the given key. -/

/-- A parsed INI file: key/value pairs in file order. -/
abbrev Ini := List (String × String)

/-- Modelled from the spec: lub_ini_find, first value bound to a key. -/
def lub_ini_find : Ini → String → Option String
  | [], _ => none
  | (k, v) :: rest, key => if k = key then some v else lub_ini_find rest key

/-! ## C library numeric parsers

Models of strtof / strtoul on decimal inputs, as used by
opt_parse_threshold and opt_parse_interval.  Leading whitespace and an
optional sign are skipped; parsing stops at the first character that cannot
extend the number; the result is none exactly when no character was consumed
(the C endptr == optarg test).  The strtof model returns the exact rational
value of the decimal literal (hexadecimal floats, inf and nan are not
modelled; no claim exercises them). -/

/-- C isspace characters skipped by strtof and strtoul. -/
def isSpaceC (c : Char) : Bool :=
  c = ' ' || c = '\t' || c = '\n' || c = '\x0d' || c = '\x0b' || c = '\x0c'

/-- Numeric value of a decimal digit list, most significant first. -/
def natOfDigits (ds : List Char) : Nat :=
  ds.foldl (fun a c => a * 10 + (c.toNat - 48)) 0

/-- Modelled C strtof on a decimal string: optional whitespace and sign,
digits with an optional fractional part and an optional exponent; none when
no digit of the mantissa was consumed. -/
def strtofM (s : String) : Option Rat :=
  let cs0 := s.data.dropWhile isSpaceC
  let sgn : Bool × List Char :=
    match cs0 with
    | '-' :: t => (true, t)
    | '+' :: t => (false, t)
    | t => (false, t)
  let neg := sgn.1
  let cs := sgn.2
  let ds1 := cs.takeWhile Char.isDigit
  let cs1 := cs.dropWhile Char.isDigit
  let frac : List Char × List Char :=
    match cs1 with
    | '.' :: t => (t.takeWhile Char.isDigit, t.dropWhile Char.isDigit)
    | t => ([], t)
  let ds2 := frac.1
  let cs2 := frac.2
  if ds1.length = 0 ∧ ds2.length = 0 then none
  else
    let e : Int :=
      match cs2 with
      | c :: t =>
        if c = 'e' ∨ c = 'E' then
          let es : Int × List Char :=
            match t with
            | '-' :: u => (-1, u)
            | '+' :: u => (1, u)
            | u => (1, u)
          let eds := es.2.takeWhile Char.isDigit
          if eds.length = 0 then 0 else es.1 * (natOfDigits eds : Int)
        else 0
      | [] => 0
    let m : Int := (natOfDigits (ds1 ++ ds2) : Int)
    let num : Int := if neg then -m else m
    let e2 : Int := e - (ds2.length : Int)
    some (if 0 ≤ e2 then mkRat (num * (10 : Int) ^ e2.toNat) 1
          else mkRat num ((10 : Nat) ^ (-e2).toNat))

/-- Modelled C strtoul with base 10: optional whitespace and sign, decimal
digits; none when no digit was consumed.  Overflow clamps to ULONG_MAX and a
negated value wraps modulo 2 ^ 64, as strtoul does on a 64-bit unsigned
long. -/
def strtoulM (s : String) : Option Nat :=
  let cs0 := s.data.dropWhile isSpaceC
  let sgn : Bool × List Char :=
    match cs0 with
    | '-' :: t => (true, t)
    | '+' :: t => (false, t)
    | t => (false, t)
  let ds := sgn.2.takeWhile Char.isDigit
  if ds.length = 0 then none
  else
    let v0 := natOfDigits ds
    let v := if 2 ^ 64 - 1 < v0 then 2 ^ 64 - 1 else v0
    some (if sgn.1 then (2 ^ 64 - v) % 2 ^ 64 else v)

/-! ## Option-value parsers from src/birq.c -/

/-- opt_parse_y_n (src/birq.c lines 347-365): y and yes set the flag, n and
no clear it, anything else is an error. -/
def opt_parse_y_n (s : String) : Option Bool :=
  if s = "y" then some true
  else if s = "yes" then some true
  else if s = "n" then some false
  else if s = "no" then some false
  else none

/-- opt_parse_strategy (src/birq.c lines 368-384). -/
def opt_parse_strategy (s : String) : Option birq_choose_strategy_e :=
  if s = "max" then some .BIRQ_CHOOSE_MAX
  else if s = "min" then some .BIRQ_CHOOSE_MIN
  else if s = "rnd" then some .BIRQ_CHOOSE_RND
  else none

/-- opt_parse_threshold (src/birq.c lines 387-406): strtof, then error only
when nothing was parsed or the value exceeds 100.  There is no lower-bound
check in the source. -/
def opt_parse_threshold (s : String) : Option Rat :=
  match strtofM s with
  | none => none
  | some t => if 100 < t then none else some t

/-- opt_parse_interval (src/birq.c lines 409-424): strtoul base 10, error
only when nothing was parsed; the unsigned long is assigned to an unsigned
int (truncation modulo 2 ^ 32).  There is no positivity check in the
source. -/
def opt_parse_interval (s : String) : Option Nat :=
  match strtoulM s with
  | none => none
  | some v => some (v % 2 ^ 32)

/-! ## The options structure (src/birq.c lines 56-72) -/

/-- struct options from src/birq.c. -/
structure Options where
  pidfile : String
  cfgfile : String
  cfgfile_userdefined : Bool
  pxm : Option String
  debug : Bool
  log_facility : Nat
  threshold : Rat
  load_limit : Rat
  verbose : Bool
  ht : Bool
  non_local_cpus : Bool
  long_interval : Nat
  short_interval : Nat
  strategy : birq_choose_strategy_e
  exclude_cpus : Nat
deriving DecidableEq

/-- The config-file option fields that opts_init (src/birq.c lines 308-330)
deliberately leaves unset: the C comment says defaults for them are only
established by parse_config via opts_default_config.  Until a config file is
parsed they hold whatever was in the malloc-returned memory; that
indeterminate content is modelled as this explicit parameter. -/
structure ConfigGarbage where
  threshold : Rat
  load_limit : Rat
  ht : Bool
  non_local_cpus : Bool
  long_interval : Nat
  short_interval : Nat
  strategy : birq_choose_strategy_e
deriving DecidableEq

/-- opts_init (src/birq.c lines 308-330): sets only the command-line option
defaults; the config-file fields keep the uninitialized content g.  The
exclude_cpus mask is cpus_init-ed to an allocated zeroed bit array. -/
def opts_init (g : ConfigGarbage) : Options :=
  { pidfile := BIRQ_PIDFILE
    cfgfile := BIRQ_CFGFILE
    cfgfile_userdefined := false
    pxm := none
    debug := false
    log_facility := LOG_DAEMON
    verbose := false
    threshold := g.threshold
    load_limit := g.load_limit
    ht := g.ht
    non_local_cpus := g.non_local_cpus
    long_interval := g.long_interval
    short_interval := g.short_interval
    strategy := g.strategy
    exclude_cpus := 0 }

/-- opts_default_config (src/birq.c lines 293-305): defaults for the
config-file options, re-established at the start of every parse_config. -/
def opts_default_config (o : Options) : Options :=
  { o with
    threshold := BIRQ_DEFAULT_THRESHOLD
    load_limit := BIRQ_DEFAULT_LOAD_LIMIT
    ht := true
    non_local_cpus := false
    long_interval := BIRQ_LONG_INTERVAL
    short_interval := BIRQ_SHORT_INTERVAL
    strategy := .BIRQ_CHOOSE_RND
    exclude_cpus := 0 }

/-! ## parse_config (src/birq.c lines 541-618)

The C function mutates opts in place and jumps to err on the first failing
key; the options already written stay written.  This is modelled by a state
of type Bool × Options (success flag, current options) threaded through one
step per key in source order; a false flag is absorbing, exactly like the
goto err that skips all remaining key blocks. -/

/-- One optional-key step of parse_config: if the key is absent nothing
happens; if present and its value parses the options are updated; if present
and parsing fails the whole parse fails with the options as they are. -/
def applyKey (ini : Ini) (key : String) (f : String → Options → Option Options)
    (st : Bool × Options) : Bool × Options :=
  if st.1 = false then st
  else
    match lub_ini_find ini key with
    | none => st
    | some s =>
      match f s st.2 with
      | none => (false, st.2)
      | some o2 => (true, o2)

/-- The use-cpus block of parse_config (src/birq.c lines 584-604): the
use-cpus mask defaults to all ones when the key is absent, then the
effective exclusion mask becomes exclude-cpus OR complement of use-cpus. -/
def useCpusStep (ini : Ini) (st : Bool × Options) : Bool × Options :=
  if st.1 = false then st
  else
    match lub_ini_find ini "use-cpus" with
    | none =>
      (true, { st.2 with
        exclude_cpus := cpus_or st.2.exclude_cpus (cpus_complement cpus_setall) })
    | some s =>
      match cpumask_parse_user s with
      | none => (false, st.2)
      | some use =>
        (true, { st.2 with
          exclude_cpus := cpus_or st.2.exclude_cpus (cpus_complement use) })

/-- Key updater for the strategy key. -/
def setStrategy (s : String) (o : Options) : Option Options :=
  (opt_parse_strategy s).map fun v => { o with strategy := v }

/-- Key updater for the threshold key. -/
def setThreshold (s : String) (o : Options) : Option Options :=
  (opt_parse_threshold s).map fun v => { o with threshold := v }

/-- Key updater for the load-limit key. -/
def setLoadLimit (s : String) (o : Options) : Option Options :=
  (opt_parse_threshold s).map fun v => { o with load_limit := v }

/-- Key updater for the short-interval key. -/
def setShortInterval (s : String) (o : Options) : Option Options :=
  (opt_parse_interval s).map fun v => { o with short_interval := v }

/-- Key updater for the long-interval key. -/
def setLongInterval (s : String) (o : Options) : Option Options :=
  (opt_parse_interval s).map fun v => { o with long_interval := v }

/-- Key updater for the exclude-cpus key. -/
def setExcludeCpus (s : String) (o : Options) : Option Options :=
  (cpumask_parse_user s).map fun m => { o with exclude_cpus := m }

/-- Key updater for the ht key. -/
def setHt (s : String) (o : Options) : Option Options :=
  (opt_parse_y_n s).map fun b => { o with ht := b }

/-- Key updater for the non-local-cpus key. -/
def setNonLocalCpus (s : String) (o : Options) : Option Options :=
  (opt_parse_y_n s).map fun b => { o with non_local_cpus := b }

/-- The key pipeline of parse_config on a successfully loaded ini file, keys
in source order: strategy, threshold, load-limit, short-interval,
long-interval, exclude-cpus, the use-cpus block, ht, non-local-cpus. -/
def parse_config_ini (ini : Ini) (o : Options) : Bool × Options :=
  applyKey ini "non-local-cpus" setNonLocalCpus
    (applyKey ini "ht" setHt
      (useCpusStep ini
        (applyKey ini "exclude-cpus" setExcludeCpus
          (applyKey ini "long-interval" setLongInterval
            (applyKey ini "short-interval" setShortInterval
              (applyKey ini "load-limit" setLoadLimit
                (applyKey ini "threshold" setThreshold
                  (applyKey ini "strategy" setStrategy (true, o)))))))))

/-- parse_config (src/birq.c lines 541-618).  The first action is
opts_default_config; only then is the ini file loaded (none models a
lub_ini_parse_file failure, in which case the function returns failure with
the options already reset to defaults). -/
def parse_config (iniFile : Option Ini) (o : Options) : Bool × Options :=
  let d := opts_default_config o
  match iniFile with
  | none => (false, d)
  | some ini => parse_config_ini ini d

/-- The mask value a parse_config run obtains for a mask-valued key: the
default when the key is absent, otherwise the cpumask_parse_user result. -/
def maskOfKey (ini : Ini) (key : String) (dflt : Nat) : Option Nat :=
  match lub_ini_find ini key with
  | none => some dflt
  | some s => cpumask_parse_user s

/-! ## Command line parsing, opts_parse (src/birq.c lines 428-495)

getopt_long is driven by the short option string hp:c:dO:vx: and the long
option table help/pid/conf/debug/facility/verbose/pxm.  An unrecognized
option makes getopt return the question-mark code, which falls into the
default case: help(-1) and exit(-1).  The model walks the argument list
(program name already stripped); GNU getopt permutes non-option arguments to
the end and the loop ignores them, so the model skips them. -/

/-- Modelled from the spec: lub_log_facility (lub/log.c is not under src/);
maps a syslog facility name to its code, none for an unknown name.  Only the
success/failure distinction matters to the claims. -/
def lub_log_facility (s : String) : Option Nat :=
  if s = "daemon" then some LOG_DAEMON
  else if s = "user" then some 8
  else if s = "local0" then some 128
  else if s = "local1" then some 136
  else if s = "local2" then some 144
  else if s = "local3" then some 152
  else if s = "local4" then some 160
  else if s = "local5" then some 168
  else if s = "local6" then some 176
  else if s = "local7" then some 184
  else none

/-- Outcome of opts_parse together with the exits performed inside it:
normal return, the usage-error exit(-1) from the default case, the help
exit(0) for -h, and the exit(-1) for a bad -O facility. -/
inductive ParseOutcome where
  | ok (o : Options)
  | usage_exit
  | help_exit
  | facility_exit
deriving DecidableEq

/-- opts_parse (src/birq.c lines 428-495) over the argument list after the
program name.  Note that no variant of an ht option appears in either option
table, although the help text still mentions -r and --ht. -/
def opts_parse : List String → Options → ParseOutcome
  | [], o => .ok o
  | a :: rest, o =>
    if a = "-h" ∨ a = "--help" then .help_exit
    else if a = "-d" ∨ a = "--debug" then opts_parse rest { o with debug := true }
    else if a = "-v" ∨ a = "--verbose" then opts_parse rest { o with verbose := true }
    else if a = "-p" ∨ a = "--pid" then
      match rest with
      | v :: r => opts_parse r { o with pidfile := v }
      | [] => .usage_exit
    else if a = "-c" ∨ a = "--conf" then
      match rest with
      | v :: r => opts_parse r { o with cfgfile := v, cfgfile_userdefined := true }
      | [] => .usage_exit
    else if a = "-x" ∨ a = "--pxm" then
      match rest with
      | v :: r => opts_parse r { o with pxm := some v }
      | [] => .usage_exit
    else if a = "-O" ∨ a = "--facility" then
      match rest with
      | v :: r =>
        match lub_log_facility v with
        | some fac => opts_parse r { o with log_facility := fac }
        | none => .facility_exit
      | [] => .usage_exit
    else
      match a.data with
      | '-' :: _ => .usage_exit
      | _ => opts_parse rest o

/-! ## Startup and shutdown of main (src/birq.c lines 75-273)

The effectful environment of main is abstracted: whether access(cfgfile,
R_OK) succeeds, the lub_ini_parse_file result, whether daemon(0,0) succeeds
and whether the pidfile open succeeds.  The main loop itself is modelled
separately (tick below); here it is represented only by the fact that a
termination signal eventually makes it exit cleanly with retval 0.  A failed
pidfile write after a successful open is only a syslog warning and has no
observable effect in this model. -/

/-- Abstract environment for one run of main. -/
structure StartEnv where
  cfg_readable : Bool
  ini : Option Ini
  daemon_ok : Bool
  pidfile_open_ok : Bool
deriving DecidableEq

/-- Observable outcome of a run of main: the return value, whether
daemon(0,0) was called and succeeded, whether the pidfile was successfully
opened (and hence written), whether it was unlinked at exit (the unlink is
guarded by pidfd being non-negative), whether the main loop was entered, and
the options in force at exit. -/
structure MainOutcome where
  retval : Int
  daemonized : Bool
  pidfile_opened : Bool
  pidfile_unlinked : Bool
  ran_loop : Bool
  final_opts : Options
deriving DecidableEq

/-- The goto err path of main taken before the daemonize stage: retval
stays -1 and pidfd is still -1, so no pidfile is unlinked. -/
def errExit (o : Options) : MainOutcome :=
  { retval := -1
    daemonized := false
    pidfile_opened := false
    pidfile_unlinked := false
    ran_loop := false
    final_opts := o }

/-- main after the config stage (src/birq.c lines 112-273): daemonize and
open the pidfile unless in debug mode, run the loop until the termination
signal, then unlink the pidfile exactly when pidfd is non-negative, i.e.
exactly when the open succeeded. -/
def afterConfig (o : Options) (env : StartEnv) : MainOutcome :=
  if o.debug then
    { retval := 0
      daemonized := false
      pidfile_opened := false
      pidfile_unlinked := false
      ran_loop := true
      final_opts := o }
  else if env.daemon_ok then
    { retval := 0
      daemonized := true
      pidfile_opened := env.pidfile_open_ok
      pidfile_unlinked := env.pidfile_open_ok
      ran_loop := true
      final_opts := o }
  else
    errExit o

/-- main (src/birq.c lines 75-273) from the config-file stage on, for a run
that is eventually terminated by SIGTERM/SIGINT/SIGQUIT: parse the config
file when it is readable (a parse failure is fatal), fail when a
user-specified config file is unreadable, and otherwise continue with the
options exactly as opts_init and opts_parse left them. -/
def mainRun (o : Options) (env : StartEnv) : MainOutcome :=
  if env.cfg_readable then
    let r := parse_config env.ini o
    if r.1 then afterConfig r.2 env else errExit r.2
  else if o.cfgfile_userdefined then errExit o
  else afterConfig o env

/-! ## The main loop tick (src/birq.c lines 190-249)

One iteration of the while loop, as an event trace plus a state transition.
The kernel-facing stages (scan_irqs, link_irqs_to_cpus, gather_statistics,
choose_irqs_to_move, balance, apply_affinity) live in irq.c / statistics.c /
balance.c outside the modelled claims; their effect on the loop control
state is abstracted to the IRQ numbers they append to the balance queue,
supplied by the per-tick environment. -/

/-- Events observable in one tick, in the order the loop body performs
them. -/
inductive Event where
  | reconfigCheck
  | rescanIrqs
  | linkIrqsToCpus
  | gatherStatistics
  | chooseIrqsToMove
  | balanceEvt
  | applyAffinityEvt
  | clearQueue
  | sleepFor (seconds : Nat)
deriving DecidableEq

/-- Per-tick environment: the sighup flag sampled at the top of the tick,
the config file state for a possible re-read, the new IRQs scan_irqs pushes
onto the balance queue, and the IRQs choose_irqs_to_move selects. -/
structure TickEnv where
  sighup : Bool
  cfg_readable : Bool
  ini : Option Ini
  new_irqs : List Nat
  chosen_irqs : List Nat
deriving DecidableEq

/-- Loop-carried state: the options and the balance queue. -/
structure LoopState where
  opts : Options
  balance_irqs : List Nat
deriving DecidableEq

/-- The reconfig block (src/birq.c lines 204-212): on sighup with a readable
config file the options are re-parsed in place; a parse failure is only
logged, the (partially reset) options stay; without a readable file nothing
changes. -/
def reconfigOpts (env : TickEnv) (o : Options) : Options :=
  if env.sighup then
    if env.cfg_readable then (parse_config env.ini o).2 else o
  else o

/-- Reconfig stage of the tick. -/
def stageReconfig (env : TickEnv) (st : LoopState) : List Event × LoopState :=
  ([.reconfigCheck], { st with opts := reconfigOpts env st.opts })

/-- scan_irqs stage: new IRQs are appended to the balance queue. -/
def stageScan (env : TickEnv) (st : LoopState) : List Event × LoopState :=
  ([.rescanIrqs], { st with balance_irqs := st.balance_irqs ++ env.new_irqs })

/-- link_irqs_to_cpus stage: no effect on the loop control state. -/
def stageLink (st : LoopState) : List Event × LoopState :=
  ([.linkIrqsToCpus], st)

/-- gather_statistics stage: no effect on the loop control state. -/
def stageGather (st : LoopState) : List Event × LoopState :=
  ([.gatherStatistics], st)

/-- choose_irqs_to_move stage: selected IRQs are appended to the balance
queue. -/
def stageChoose (env : TickEnv) (st : LoopState) : List Event × LoopState :=
  ([.chooseIrqsToMove], { st with balance_irqs := st.balance_irqs ++ env.chosen_irqs })

/-- The balance block (src/birq.c lines 229-245): when the balance queue is
non-empty, balance, apply_affinity and the queue-freeing loop run and the
next sleep uses short_interval; otherwise nothing runs and the next sleep
uses long_interval. -/
def stageBalanceBlock (st : LoopState) : List Event × LoopState × Nat :=
  if st.balance_irqs.length ≠ 0 then
    ([.balanceEvt, .applyAffinityEvt, .clearQueue],
      { st with balance_irqs := [] }, st.opts.short_interval)
  else
    ([], st, st.opts.long_interval)

/-- One tick of the main loop (src/birq.c lines 190-249): the stages in
source order followed by the single sleep. -/
def tick (env : TickEnv) (st : LoopState) : List Event × LoopState :=
  let r1 := stageReconfig env st
  let r2 := stageScan env r1.2
  let r3 := stageLink r2.2
  let r4 := stageGather r3.2
  let r5 := stageChoose env r4.2
  let r6 := stageBalanceBlock r5.2
  (r1.1 ++ r2.1 ++ r3.1 ++ r4.1 ++ r5.1 ++ r6.1 ++ [.sleepFor r6.2.2], r6.2.1)

/-! ## Sample values used by witnesses and counterexamples -/

/-- An arbitrary content of the uninitialized config fields. -/
def sampleGarbage : ConfigGarbage :=
  { threshold := 0
    load_limit := 0
    ht := false
    non_local_cpus := false
    long_interval := 0
    short_interval := 0
    strategy := .BIRQ_CHOOSE_MAX }

/-- Options as produced by opts_init with the sample garbage content. -/
def sampleOpts : Options := opts_init sampleGarbage

/-- Options as above but with the -d debug flag set. -/
def debugOpts : Options := { sampleOpts with debug := true }

/-- A config file setting only threshold to 50. -/
def iniThreshold50 : Ini := [("threshold", "50")]

/-- A config file with an invalid strategy value. -/
def iniBadStrategy : Ini := [("strategy", "bogus")]

/-- A config file with an invalid exclude-cpus mask. -/
def iniBadMask : Ini := [("exclude-cpus", "zz")]

/-- A config file giving both an exclude-cpus and a use-cpus mask. -/
def iniMasks : Ini := [("exclude-cpus", "5"), ("use-cpus", "7")]

/-- A startup environment whose only failure is the pidfile open. -/
def envPidfail : StartEnv :=
  { cfg_readable := true, ini := some [], daemon_ok := true, pidfile_open_ok := false }

/-- A fully healthy startup environment with an empty config file. -/
def envOk : StartEnv :=
  { cfg_readable := true, ini := some [], daemon_ok := true, pidfile_open_ok := true }

/-- A startup environment with no readable config file. -/
def envNoCfg : StartEnv :=
  { cfg_readable := false, ini := none, daemon_ok := true, pidfile_open_ok := true }

/-- A startup environment whose config file holds an invalid mask. -/
def envBadMask : StartEnv :=
  { cfg_readable := true, ini := some iniBadMask, daemon_ok := true, pidfile_open_ok := true }

/-- The options in force after a first successful parse of iniThreshold50. -/
def optsAfter50 : Options := (parse_config (some iniThreshold50) sampleOpts).2

/-- A tick environment delivering a reconfig request whose re-parse fails. -/
def envC1tick : TickEnv :=
  { sighup := true, cfg_readable := true, ini := some iniBadStrategy,
    new_irqs := [], chosen_irqs := [] }

/-- An arbitrary uninitialized-memory content in which the strategy bytes
happen to decode as BIRQ_CHOOSE_MAX and ht as 0. -/
def garbageMax : ConfigGarbage :=
  { threshold := 12
    load_limit := 34
    ht := false
    non_local_cpus := true
    long_interval := 7
    short_interval := 9
    strategy := .BIRQ_CHOOSE_MAX }

/-- The conditions under which the modelled main returns -1 instead of
entering the loop: the readable config file fails to parse, a user-specified
config file is unreadable, or daemon(0,0) fails outside debug mode. -/
def startup_error (o : Options) (env : StartEnv) : Bool :=
  if env.cfg_readable then
    if (parse_config env.ini o).1 then (!o.debug && !env.daemon_ok) else true
  else if o.cfgfile_userdefined then true
  else (!o.debug && !env.daemon_ok)

/-! ## Helper lemmas about the parse_config pipeline -/

/-- A key updater that never changes the exclusion mask. -/
def excl_preserving (f : String → Options → Option Options) : Prop :=
  ∀ s o o', f s o = some o' → o'.exclude_cpus = o.exclude_cpus

/-- A key updater that never changes the debug flag (a command-line-only
field parse_config must not touch). -/
def debug_preserving (f : String → Options → Option Options) : Prop :=
  ∀ s o o', f s o = some o' → o'.debug = o.debug

lemma applyKey_fst {ini : Ini} {key : String} {f : String → Options → Option Options}
    {st : Bool × Options} (h : (applyKey ini key f st).1 = true) : st.1 = true := by
  cases hst : st.1 with
  | true => rfl
  | false =>
    unfold applyKey at h
    rw [if_pos hst, hst] at h
    exact Bool.noConfusion h

lemma useCpusStep_fst {ini : Ini} {st : Bool × Options}
    (h : (useCpusStep ini st).1 = true) : st.1 = true := by
  cases hst : st.1 with
  | true => rfl
  | false =>
    unfold useCpusStep at h
    rw [if_pos hst, hst] at h
    exact Bool.noConfusion h

lemma applyKey_excl {ini : Ini} {key : String} {f : String → Options → Option Options}
    (hf : excl_preserving f) (st : Bool × Options) :
    (applyKey ini key f st).2.exclude_cpus = st.2.exclude_cpus := by
  unfold applyKey
  by_cases hb : st.1 = false
  · rw [if_pos hb]
  · rw [if_neg hb]
    cases hfind : lub_ini_find ini key with
    | none => rfl
    | some s =>
      dsimp only
      cases hv : f s st.2 with
      | none => rfl
      | some o2 => exact hf s st.2 o2 hv

lemma applyKey_none {ini : Ini} {key : String} {f : String → Options → Option Options}
    {st : Bool × Options} (hst : st.1 = true) (hfind : lub_ini_find ini key = none) :
    applyKey ini key f st = st := by
  unfold applyKey
  rw [if_neg (by simp [hst]), hfind]

lemma applyKey_some_true {ini : Ini} {key : String} {f : String → Options → Option Options}
    {st : Bool × Options} {s : String}
    (hst : st.1 = true) (hfind : lub_ini_find ini key = some s)
    (hs : (applyKey ini key f st).1 = true) :
    ∃ o2, f s st.2 = some o2 ∧ applyKey ini key f st = (true, o2) := by
  unfold applyKey at hs ⊢
  rw [if_neg (by simp [hst]), hfind] at hs ⊢
  dsimp only at hs ⊢
  cases hv : f s st.2 with
  | none => rw [hv] at hs; exact Bool.noConfusion hs
  | some o2 => exact ⟨o2, rfl, rfl⟩

lemma applyKey_false {ini : Ini} {key : String} {f : String → Options → Option Options}
    {st : Bool × Options} (h : st.1 = false) : applyKey ini key f st = st := by
  unfold applyKey
  rw [if_pos h]

lemma applyKey_fail {ini : Ini} {key : String} {f : String → Options → Option Options}
    {st : Bool × Options} {s : String}
    (hst : st.1 = true) (hfind : lub_ini_find ini key = some s)
    (hv : f s st.2 = none) :
    applyKey ini key f st = (false, st.2) := by
  unfold applyKey
  rw [if_neg (by simp [hst]), hfind]
  dsimp only
  rw [hv]

lemma useCpusStep_none {ini : Ini} {st : Bool × Options}
    (hst : st.1 = true) (hfind : lub_ini_find ini "use-cpus" = none) :
    useCpusStep ini st =
      (true, { st.2 with
        exclude_cpus := cpus_or st.2.exclude_cpus (cpus_complement cpus_setall) }) := by
  unfold useCpusStep
  rw [if_neg (by simp [hst]), hfind]

lemma useCpusStep_some {ini : Ini} {st : Bool × Options} {s : String} {use : Nat}
    (hst : st.1 = true) (hfind : lub_ini_find ini "use-cpus" = some s)
    (hp : cpumask_parse_user s = some use) :
    useCpusStep ini st =
      (true, { st.2 with
        exclude_cpus := cpus_or st.2.exclude_cpus (cpus_complement use) }) := by
  unfold useCpusStep
  rw [if_neg (by simp [hst]), hfind]
  dsimp only
  rw [hp]

lemma useCpusStep_fail {ini : Ini} {st : Bool × Options} {s : String}
    (hst : st.1 = true) (hfind : lub_ini_find ini "use-cpus" = some s)
    (hp : cpumask_parse_user s = none) :
    (useCpusStep ini st).1 = false := by
  unfold useCpusStep
  rw [if_neg (by simp [hst]), hfind]
  dsimp only
  rw [hp]

lemma setStrategy_excl : excl_preserving setStrategy := by
  intro s o o' h
  unfold setStrategy at h
  obtain ⟨v, hv, rfl⟩ := Option.map_eq_some'.mp h
  rfl

lemma setThreshold_excl : excl_preserving setThreshold := by
  intro s o o' h
  unfold setThreshold at h
  obtain ⟨v, hv, rfl⟩ := Option.map_eq_some'.mp h
  rfl

lemma setLoadLimit_excl : excl_preserving setLoadLimit := by
  intro s o o' h
  unfold setLoadLimit at h
  obtain ⟨v, hv, rfl⟩ := Option.map_eq_some'.mp h
  rfl

lemma setShortInterval_excl : excl_preserving setShortInterval := by
  intro s o o' h
  unfold setShortInterval at h
  obtain ⟨v, hv, rfl⟩ := Option.map_eq_some'.mp h
  rfl

lemma setLongInterval_excl : excl_preserving setLongInterval := by
  intro s o o' h
  unfold setLongInterval at h
  obtain ⟨v, hv, rfl⟩ := Option.map_eq_some'.mp h
  rfl

lemma setHt_excl : excl_preserving setHt := by
  intro s o o' h
  unfold setHt at h
  obtain ⟨v, hv, rfl⟩ := Option.map_eq_some'.mp h
  rfl

lemma setNonLocalCpus_excl : excl_preserving setNonLocalCpus := by
  intro s o o' h
  obtain ⟨v, hv, rfl⟩ := Option.map_eq_some'.mp h
  rfl

/-- The tail of the parse_config pipeline from the exclude-cpus key on: when
it succeeds, the final exclusion mask is the parsed exclude-cpus mask (or
empty) united with the complement of the use-cpus mask (or of all ones). -/
lemma pipeline_exclude (ini : Ini) (st : Bool × Options) (em um : Nat)
    (hE : maskOfKey ini "exclude-cpus" 0 = some em)
    (hU : maskOfKey ini "use-cpus" cpus_setall = some um)
    (h0 : st.2.exclude_cpus = 0)
    (hs : (applyKey ini "non-local-cpus" setNonLocalCpus
            (applyKey ini "ht" setHt
              (useCpusStep ini
                (applyKey ini "exclude-cpus" setExcludeCpus st)))).1 = true) :
    (applyKey ini "non-local-cpus" setNonLocalCpus
      (applyKey ini "ht" setHt
        (useCpusStep ini
          (applyKey ini "exclude-cpus" setExcludeCpus st)))).2.exclude_cpus
      = cpus_or em (cpus_complement um) := by
  have h7 : (useCpusStep ini (applyKey ini "exclude-cpus" setExcludeCpus st)).1 = true :=
    applyKey_fst (applyKey_fst hs)
  have h6 : (applyKey ini "exclude-cpus" setExcludeCpus st).1 = true := useCpusStep_fst h7
  have h5 : st.1 = true := applyKey_fst h6
  rw [applyKey_excl setNonLocalCpus_excl, applyKey_excl setHt_excl]
  have hs6 : (applyKey ini "exclude-cpus" setExcludeCpus st).2.exclude_cpus = em := by
    cases hfind : lub_ini_find ini "exclude-cpus" with
    | none =>
      rw [maskOfKey, hfind] at hE
      dsimp only at hE
      rw [Option.some_inj] at hE
      rw [applyKey_none h5 hfind, h0, hE]
    | some s =>
      rw [maskOfKey, hfind] at hE
      dsimp only at hE
      obtain ⟨o2, hfo, heq⟩ := applyKey_some_true h5 hfind h6
      rw [heq]
      unfold setExcludeCpus at hfo
      rw [hE, Option.map_some'] at hfo
      rw [Option.some_inj] at hfo
      rw [← hfo]
  cases hfindU : lub_ini_find ini "use-cpus" with
  | none =>
    rw [maskOfKey, hfindU] at hU
    rw [Option.some_inj] at hU
    rw [useCpusStep_none h6 hfindU]
    dsimp only
    rw [hs6, hU]
  | some s =>
    rw [maskOfKey, hfindU] at hU
    dsimp only at hU
    cases hp : cpumask_parse_user s with
    | none =>
      exfalso
      have hfail := useCpusStep_fail h6 hfindU hp
      rw [hfail] at h7
      exact Bool.noConfusion h7
    | some use =>
      rw [hp, Option.some_inj] at hU
      rw [useCpusStep_some h6 hfindU hp]
      dsimp only
      rw [hs6, hU]

lemma applyKey_debug {ini : Ini} {key : String} {f : String → Options → Option Options}
    (hf : debug_preserving f) (st : Bool × Options) :
    (applyKey ini key f st).2.debug = st.2.debug := by
  unfold applyKey
  by_cases hb : st.1 = false
  · rw [if_pos hb]
  · rw [if_neg hb]
    cases hfind : lub_ini_find ini key with
    | none => rfl
    | some s =>
      dsimp only
      cases hv : f s st.2 with
      | none => rfl
      | some o2 => exact hf s st.2 o2 hv

lemma useCpusStep_debug (ini : Ini) (st : Bool × Options) :
    (useCpusStep ini st).2.debug = st.2.debug := by
  unfold useCpusStep
  by_cases hb : st.1 = false
  · rw [if_pos hb]
  · rw [if_neg hb]
    cases hfind : lub_ini_find ini "use-cpus" with
    | none => rfl
    | some s =>
      dsimp only
      cases hp : cpumask_parse_user s with
      | none => rfl
      | some use => rfl

lemma setStrategy_debug : debug_preserving setStrategy := by
  intro s o o' h
  unfold setStrategy at h
  obtain ⟨v, hv, rfl⟩ := Option.map_eq_some'.mp h
  rfl

lemma setThreshold_debug : debug_preserving setThreshold := by
  intro s o o' h
  unfold setThreshold at h
  obtain ⟨v, hv, rfl⟩ := Option.map_eq_some'.mp h
  rfl

lemma setLoadLimit_debug : debug_preserving setLoadLimit := by
  intro s o o' h
  unfold setLoadLimit at h
  obtain ⟨v, hv, rfl⟩ := Option.map_eq_some'.mp h
  rfl

lemma setShortInterval_debug : debug_preserving setShortInterval := by
  intro s o o' h
  unfold setShortInterval at h
  obtain ⟨v, hv, rfl⟩ := Option.map_eq_some'.mp h
  rfl

lemma setLongInterval_debug : debug_preserving setLongInterval := by
  intro s o o' h
  unfold setLongInterval at h
  obtain ⟨v, hv, rfl⟩ := Option.map_eq_some'.mp h
  rfl

lemma setExcludeCpus_debug : debug_preserving setExcludeCpus := by
  intro s o o' h
  unfold setExcludeCpus at h
  obtain ⟨v, hv, rfl⟩ := Option.map_eq_some'.mp h
  rfl

lemma setHt_debug : debug_preserving setHt := by
  intro s o o' h
  unfold setHt at h
  obtain ⟨v, hv, rfl⟩ := Option.map_eq_some'.mp h
  rfl

lemma setNonLocalCpus_debug : debug_preserving setNonLocalCpus := by
  intro s o o' h
  unfold setNonLocalCpus at h
  obtain ⟨v, hv, rfl⟩ := Option.map_eq_some'.mp h
  rfl

/-- parse_config never touches the command-line debug flag. -/
lemma parse_config_debug (i : Option Ini) (o : Options) :
    (parse_config i o).2.debug = o.debug := by
  cases i with
  | none => rfl
  | some ini =>
    have heq : parse_config (some ini) o =
        parse_config_ini ini (opts_default_config o) := rfl
    rw [heq, parse_config_ini]
    rw [applyKey_debug setNonLocalCpus_debug, applyKey_debug setHt_debug,
      useCpusStep_debug, applyKey_debug setExcludeCpus_debug,
      applyKey_debug setLongInterval_debug, applyKey_debug setShortInterval_debug,
      applyKey_debug setLoadLimit_debug, applyKey_debug setThreshold_debug,
      applyKey_debug setStrategy_debug]
    rfl

/-- The balance block rephrased on the emptiness of the queue rather than on
its length. -/
lemma stageBalanceBlock_eq (st : LoopState) :
    stageBalanceBlock st =
      if st.balance_irqs = [] then ([], st, st.opts.long_interval)
      else ([Event.balanceEvt, Event.applyAffinityEvt, Event.clearQueue],
        { st with balance_irqs := [] }, st.opts.short_interval) := by
  unfold stageBalanceBlock
  by_cases h : st.balance_irqs = []
  · rw [if_pos h, if_neg (by simp [h])]
  · rw [if_neg h, if_pos (by simp [List.length_eq_zero, h])]

/-! ## Claim theorems -/

/-- C1, counterexample: after a successful parse that set threshold to 50, a
reconfig whose re-parse fails (bad strategy value) leaves the threshold at
the default 99, not at the previously active 50: the previous configuration
is not retained. -/
theorem C1_reconfig_counterexample :
    (parse_config (some iniThreshold50) sampleOpts).1 = true ∧
    optsAfter50.threshold = 50 ∧
    (parse_config (some iniBadStrategy) optsAfter50).1 = false ∧
    (parse_config (some iniBadStrategy) optsAfter50).2.threshold = 99 := by
  decide

/-- C1, amended: when the re-parse of the config file on a reconfig request
fails, the daemon does keep running (the tick proceeds through all its
stages), but the previously active configuration is not retained: the
options are first reset to defaults by opts_default_config and only the keys
parsed before the failure survive — with a bad strategy value, the very
first key, the options are exactly the defaults. -/
theorem C1_reconfig_failure_resets (o : Options) (env : TickEnv) (st : LoopState)
    (h1 : env.sighup = true) (h2 : env.cfg_readable = true)
    (h3 : env.ini = some iniBadStrategy) :
    (parse_config env.ini o).1 = false ∧
    (parse_config env.ini o).2 = opts_default_config o ∧
    (tick env st).1.take 5 =
      [Event.reconfigCheck, Event.rescanIrqs, Event.linkIrqsToCpus,
       Event.gatherStatistics, Event.chooseIrqsToMove] := by
  refine ⟨?_, ?_, ?_⟩
  · rw [h3]; rfl
  · rw [h3]; rfl
  · simp only [tick, stageReconfig, stageScan, stageLink, stageGather, stageChoose]
    cases hq : stageBalanceBlock
      { opts := reconfigOpts env st.opts,
        balance_irqs := st.balance_irqs ++ env.new_irqs ++ env.chosen_irqs } with
    | mk evs rest => simp [List.take]

/-- C1, witness: the amended statement at the concrete run of the
counterexample. -/
theorem C1_reconfig_witness :
    (parse_config envC1tick.ini optsAfter50).1 = false ∧
    (parse_config envC1tick.ini optsAfter50).2 = opts_default_config optsAfter50 ∧
    (tick envC1tick { opts := optsAfter50, balance_irqs := [] }).1.take 5 =
      [Event.reconfigCheck, Event.rescanIrqs, Event.linkIrqsToCpus,
       Event.gatherStatistics, Event.chooseIrqsToMove] :=
  C1_reconfig_failure_resets optsAfter50 envC1tick
    { opts := optsAfter50, balance_irqs := [] } rfl rfl rfl

/-- C2: for every config that parse_config accepts, the effective exclusion
mask equals the union of the parsed exclude-cpus mask (empty when the key is
absent) and the complement of the use-cpus mask (all ones when the key is
absent). -/
theorem C2_effective_exclusion (ini : Ini) (o : Options) (em um : Nat)
    (hE : maskOfKey ini "exclude-cpus" 0 = some em)
    (hU : maskOfKey ini "use-cpus" cpus_setall = some um)
    (hs : (parse_config (some ini) o).1 = true) :
    (parse_config (some ini) o).2.exclude_cpus = cpus_or em (cpus_complement um) := by
  have heq : parse_config (some ini) o = parse_config_ini ini (opts_default_config o) := rfl
  rw [heq] at hs ⊢
  rw [parse_config_ini] at hs ⊢
  refine pipeline_exclude ini _ em um hE hU ?_ hs
  rw [applyKey_excl setLongInterval_excl, applyKey_excl setShortInterval_excl,
    applyKey_excl setLoadLimit_excl, applyKey_excl setThreshold_excl,
    applyKey_excl setStrategy_excl]
  rfl

/-- C2, witness: a config with exclude-cpus 5 and use-cpus 7 yields the
exclusion mask 5 united with the complement of 7. -/
theorem C2_effective_exclusion_witness :
    (parse_config (some iniMasks) sampleOpts).2.exclude_cpus =
      cpus_or 5 (cpus_complement 7) :=
  C2_effective_exclusion iniMasks sampleOpts 5 7 (by decide) (by decide) (by decide)

/-- C3: every tick runs reconfig check, rescan, re-link, statistics
gathering and selection in that order; then exactly when the balance queue
is non-empty the balance, affinity-write and queue-clear stages run and the
sleep lasts short_interval, otherwise the sleep lasts long_interval; the
queue is empty at the end of the tick either way. -/
theorem C3_tick_order (env : TickEnv) (st : LoopState) :
    (tick env st).1 =
      [Event.reconfigCheck, Event.rescanIrqs, Event.linkIrqsToCpus,
       Event.gatherStatistics, Event.chooseIrqsToMove] ++
      (if (st.balance_irqs ++ env.new_irqs) ++ env.chosen_irqs = [] then
        [Event.sleepFor (reconfigOpts env st.opts).long_interval]
      else
        [Event.balanceEvt, Event.applyAffinityEvt, Event.clearQueue,
         Event.sleepFor (reconfigOpts env st.opts).short_interval]) ∧
    (tick env st).2.balance_irqs = [] := by
  by_cases h : st.balance_irqs = [] ∧ env.new_irqs = [] ∧ env.chosen_irqs = []
  · obtain ⟨ha, hb, hc⟩ := h
    constructor <;>
      simp [tick, stageReconfig, stageScan, stageLink, stageGather, stageChoose,
        stageBalanceBlock_eq, ha, hb, hc]
  · constructor <;>
      simp [tick, stageReconfig, stageScan, stageLink, stageGather, stageChoose,
        stageBalanceBlock_eq, h]

/-- C4, counterexample: opt_parse_threshold accepts -5, a value outside the
0 to 100 range the claim requires it to reject. -/
theorem C4_threshold_counterexample :
    opt_parse_threshold "-5" = some (-5) ∧ ((-5 : Rat) < 0) := by
  decide

/-- C4, amended: opt_parse_threshold accepts exactly the strings whose
prefix parses as a decimal float of value at most 100 — including negative
values, for there is no lower-bound check — and fails exactly when nothing
parses or the value exceeds 100. -/
theorem C4_threshold_amended (s : String) (v : Rat) :
    opt_parse_threshold s = some v ↔ (strtofM s = some v ∧ v ≤ 100) := by
  unfold opt_parse_threshold
  cases h : strtofM s with
  | none => simp
  | some t =>
    dsimp only
    by_cases h1 : 100 < t
    · rw [if_pos h1]
      constructor
      · intro hc; exact absurd hc (by simp)
      · rintro ⟨ht, hv⟩
        rw [Option.some_inj] at ht
        rw [ht] at h1
        exact absurd hv (not_le.mpr h1)
    · rw [if_neg h1]
      push_neg at h1
      constructor
      · intro hc
        rw [Option.some_inj] at hc
        exact ⟨by rw [hc], by rw [← hc]; exact h1⟩
      · rintro ⟨ht, _⟩
        exact ht

/-- C5, counterexample: opt_parse_interval accepts the non-positive value 0,
which the claim requires it to reject. -/
theorem C5_interval_counterexample :
    opt_parse_interval "0" = some 0 := by
  decide

/-- C5, amended: opt_parse_interval accepts exactly the strings with a
(possibly signed) decimal prefix; the stored value is the strtoul result
truncated to unsigned int.  Zero and wrapped negative values are accepted:
there is no positivity check, only non-numeric strings fail. -/
theorem C5_interval_amended (s : String) (v : Nat) :
    opt_parse_interval s = some v ↔ (∃ w, strtoulM s = some w ∧ v = w % 2 ^ 32) := by
  unfold opt_parse_interval
  cases h : strtoulM s with
  | none => simp
  | some w =>
    dsimp only
    constructor
    · intro hc
      rw [Option.some_inj] at hc
      exact ⟨w, rfl, hc.symm⟩
    · rintro ⟨w2, hw, hv⟩
      rw [Option.some_inj] at hw
      rw [hv, hw]

/-- C6, counterexample: with a readable, well-formed config and a pidfile
that cannot be opened, the daemon still runs and a clean termination exits
with code 0 — an unwritable pidfile is not a startup error. -/
theorem C6_exit_code_counterexample :
    (mainRun sampleOpts envPidfail).retval = 0 ∧
    (mainRun sampleOpts envPidfail).pidfile_opened = false ∧
    (mainRun sampleOpts envPidfail).ran_loop = true := by
  decide

/-- C6, amended: the exit code is 0 on clean termination and -1 exactly on
the startup errors: a readable config file that fails to parse (a bad mask
in the config is such a failure), an unreadable user-specified config file,
or a daemon(0,0) failure.  An unwritable pidfile only logs a warning and
leaves the exit code 0. -/
theorem C6_exit_code_amended :
    (∀ (o : Options) (env : StartEnv),
      (mainRun o env).retval = if startup_error o env then -1 else 0) ∧
    (parse_config (some iniBadMask) sampleOpts).1 = false ∧
    (mainRun sampleOpts envBadMask).retval = -1 ∧
    (mainRun sampleOpts envOk).retval = 0 ∧
    (mainRun sampleOpts envPidfail).retval = 0 := by
  refine ⟨?_, by decide, by decide, by decide, by decide⟩
  intro o env
  unfold mainRun startup_error afterConfig errExit
  cases hcr : env.cfg_readable with
  | false =>
    cases hud : o.cfgfile_userdefined with
    | false =>
      cases hdb : o.debug with
      | false =>
        cases hdo : env.daemon_ok <;> simp [hcr, hud, hdb, hdo]
      | true => simp [hcr, hud, hdb]
    | true => simp [hcr, hud]
  | true =>
    cases hp : (parse_config env.ini o).1 with
    | false => simp [hcr, hp]
    | true =>
      cases hdb : o.debug with
      | false =>
        cases hdo : env.daemon_ok <;>
          simp [hcr, hp, hdb, hdo, parse_config_debug]
      | true => simp [hcr, hp, hdb, parse_config_debug]

/-- C7: the claim is right about the intended defaults and the code wrong
about establishing them: parse_config on a config file with no keys does
yield strategy rnd, ht on, non-local-cpus off and an empty exclusion mask,
but when no config file is readable at startup parse_config never runs and
the daemon enters its loop with whatever indeterminate content opts_init
left in those fields — here a content decoding as strategy MAX and ht
off. -/
theorem C7_defaults_not_established :
    (mainRun (opts_init garbageMax) envNoCfg).ran_loop = true ∧
    (mainRun (opts_init garbageMax) envNoCfg).final_opts.strategy =
      birq_choose_strategy_e.BIRQ_CHOOSE_MAX ∧
    (mainRun (opts_init garbageMax) envNoCfg).final_opts.ht = false ∧
    (mainRun (opts_init garbageMax) envNoCfg).final_opts.non_local_cpus = true ∧
    (mainRun (opts_init garbageMax) envNoCfg).final_opts.exclude_cpus = 0 ∧
    (parse_config (some []) (opts_init garbageMax)).1 = true ∧
    (parse_config (some []) (opts_init garbageMax)).2.strategy =
      birq_choose_strategy_e.BIRQ_CHOOSE_RND ∧
    (parse_config (some []) (opts_init garbageMax)).2.ht = true ∧
    (parse_config (some []) (opts_init garbageMax)).2.non_local_cpus = false ∧
    (parse_config (some []) (opts_init garbageMax)).2.exclude_cpus = 0 := by
  decide

/-- C8, counterexample: giving -r on the command line does cause a usage
error exit, contrary to the claim that the ht option is still accepted by
argument parsing. -/
theorem C8_ht_cli_counterexample :
    opts_parse ["-r"] sampleOpts = ParseOutcome.usage_exit := by
  decide

/-- C8, amended: the ht command-line option survives only in the help text;
it is in neither getopt table, so -r and --ht both produce the usage-error
exit, while the config-file ht key is honoured. -/
theorem C8_ht_cli_amended :
    opts_parse ["-r"] sampleOpts = ParseOutcome.usage_exit ∧
    opts_parse ["--ht"] sampleOpts = ParseOutcome.usage_exit ∧
    (parse_config (some [("ht", "n")]) sampleOpts).1 = true ∧
    (parse_config (some [("ht", "n")]) sampleOpts).2.ht = false ∧
    (parse_config (some [("ht", "y")]) sampleOpts).2.ht = true := by
  decide

/-- C9: opt_parse_y_n maps y and yes to the set flag, n and no to the
cleared flag, and rejects every other string, which in turn makes
parse_config fail on an ht key holding such a string. -/
theorem C9_y_n_parsing (s : String) :
    (opt_parse_y_n s =
      if s = "y" ∨ s = "yes" then some true
      else if s = "n" ∨ s = "no" then some false
      else none) ∧
    (∀ g : Options, s ≠ "y" → s ≠ "yes" → s ≠ "n" → s ≠ "no" →
      (parse_config (some [("ht", s)]) g).1 = false) := by
  constructor
  · unfold opt_parse_y_n
    by_cases h1 : s = "y"
    · simp [h1]
    · by_cases h2 : s = "yes"
      · simp [h1, h2]
      · by_cases h3 : s = "n"
        · simp [h1, h2, h3]
        · by_cases h4 : s = "no"
          · simp [h1, h2, h3, h4]
          · simp [h1, h2, h3, h4]
  · intro g h1 h2 h3 h4
    have hy : opt_parse_y_n s = none := by
      unfold opt_parse_y_n
      simp [h1, h2, h3, h4]
    have heq : parse_config (some [("ht", s)]) g =
        parse_config_ini [("ht", s)] (opts_default_config g) := rfl
    rw [heq, parse_config_ini]
    have hstep : ∀ key : String, key ≠ "ht" →
        lub_ini_find [("ht", s)] key = none := by
      intro key hk
      unfold lub_ini_find
      rw [if_neg (fun hc => hk hc.symm)]
      rfl
    have hfind : lub_ini_find [("ht", s)] "ht" = some s := by
      unfold lub_ini_find
      rw [if_pos rfl]
    rw [applyKey_none (by rfl) (hstep "strategy" (by decide))]
    rw [applyKey_none (by rfl) (hstep "threshold" (by decide))]
    rw [applyKey_none (by rfl) (hstep "load-limit" (by decide))]
    rw [applyKey_none (by rfl) (hstep "short-interval" (by decide))]
    rw [applyKey_none (by rfl) (hstep "long-interval" (by decide))]
    rw [applyKey_none (by rfl) (hstep "exclude-cpus" (by decide))]
    rw [useCpusStep_none (by rfl) (hstep "use-cpus" (by decide))]
    rw [applyKey_fail (by rfl) hfind (by simp [setHt, hy])]
    rw [applyKey_false (by rfl)]

/-- C9, witness: the value z is rejected and makes parse_config fail. -/
theorem C9_y_n_witness :
    (parse_config (some [("ht", "z")]) sampleOpts).1 = false :=
  (C9_y_n_parsing "z").2 sampleOpts (by decide) (by decide) (by decide) (by decide)

/-- C10: in debug mode main neither daemonizes nor opens, writes or unlinks
a pidfile; in every mode the pidfile is unlinked at exit exactly when it was
successfully opened at startup. -/
theorem C10_debug_pidfile (o : Options) (env : StartEnv) :
    (o.debug = true →
      (mainRun o env).daemonized = false ∧
      (mainRun o env).pidfile_opened = false ∧
      (mainRun o env).pidfile_unlinked = false) ∧
    (mainRun o env).pidfile_unlinked = (mainRun o env).pidfile_opened := by
  unfold mainRun afterConfig errExit
  constructor
  · intro hdb
    cases hcr : env.cfg_readable with
    | false =>
      cases hud : o.cfgfile_userdefined with
      | false => simp [hcr, hud, hdb]
      | true => simp [hcr, hud]
    | true =>
      cases hp : (parse_config env.ini o).1 with
      | false => simp [hcr, hp]
      | true => simp [hcr, hp, hdb, parse_config_debug]
  · cases hcr : env.cfg_readable with
    | false =>
      cases hud : o.cfgfile_userdefined with
      | false =>
        cases hdb : o.debug with
        | false => cases hdo : env.daemon_ok <;> simp [hcr, hud, hdb, hdo]
        | true => simp [hcr, hud, hdb]
      | true => simp [hcr, hud]
    | true =>
      cases hp : (parse_config env.ini o).1 with
      | false => simp [hcr, hp]
      | true =>
        cases hdb : o.debug with
        | false =>
          cases hdo : env.daemon_ok <;>
            simp [hcr, hp, hdb, hdo, parse_config_debug]
        | true => simp [hcr, hp, hdb, parse_config_debug]

/-- C10, witness: the property at a concrete debug-mode run. -/
theorem C10_debug_pidfile_witness :
    (mainRun debugOpts envOk).daemonized = false ∧
    (mainRun debugOpts envOk).pidfile_opened = false ∧
    (mainRun debugOpts envOk).pidfile_unlinked = false :=
  (C10_debug_pidfile debugOpts envOk).1 rfl

end Birq
